import Mathlib

/-!
Verification of the server side of the synapse TCP replication stream
(`src/synapse/replication/tcp_resource.py` and
`src/synapse/replication/tcp/resource.py`), shallowly embedded in Lean 4.

Tokens are modelled as `Int` (Python longs).  Row payloads are opaque per
the design (they are only serialized and forwarded), so a payload is a
`String` and serialization is the identity on the already-encoded string.
-/

namespace Synapse

/-- `MAX_EVENTS_BEHIND` from both source files. -/
def MAX_EVENTS_BEHIND : Nat := 10000

/-- Success test for `Except`, used to state which operations raise. -/
def exceptOk {ε α : Type} : Except ε α → Bool
  | .ok _ => true
  | .error _ => false

/-! ## Stream (tcp_resource.py, class `Stream`) -/

/-- The mutable token state of a `Stream`: `self.last_token` and
`self.upto_token`. -/
structure StreamSt where
  last : Int
  upto : Int
  deriving Repr, DecidableEq

/-- An `update_function(from_token, current_token, limit)` collaborator:
returns the rows (token, serialized payload) for the window. -/
def UpdateFun : Type := Int → Int → Nat → List (Int × String)

/-- `Stream.__init__`: `last_token` and `upto_token` are two successive
reads of `current_token()` (first read `t1`, second read `t2`). -/
def mkStream (t1 t2 : Int) : StreamSt := { last := t1, upto := t2 }

/-- `Stream.advance_current_token`: `self.upto_token = self.current_token()`,
where `c` is the value the backing source returns for this call. -/
def advance_current_token (st : StreamSt) (c : Int) : StreamSt :=
  { st with upto := c }

/-- The `from_token` argument of `get_updates_since`: either the `NOW`
sentinel (the code accepts `"NOW"` and `"now"`), a numeric token, or a
string that `long()` fails to parse. -/
inductive FromTok where
  | NOW : FromTok
  | tok : Int → FromTok
  | malformed : FromTok
  deriving Repr, DecidableEq

/-- Payload serialization (`json.dumps(row[1:])`).  Payloads are opaque
bytes to the core, so rows carry the already-serialized string and
serialization is the identity. -/
def serializeRow (s : String) : String := s

/-- `Stream.get_updates_since(from_token)`:
if `from_token in ("NOW", "now")` return `([], upto_token)`;
`long(from_token)` (raises on a malformed string);
if `from_token == current_token` return `([], current_token)`;
otherwise fetch with `limit = MAX_EVENTS_BEHIND + 1` and raise
`"stream has fallen behined"` when `len(rows) >= MAX_EVENTS_BEHIND`. -/
def get_updates_since (st : StreamSt) (update_function : UpdateFun)
    (from_token : FromTok) : Except String (List (Int × String) × Int) :=
  match from_token with
  | .NOW => .ok ([], st.upto)
  | .malformed => .error ("invalid literal for long()")
  | .tok ft =>
    let current_token := st.upto
    if ft = current_token then
      .ok ([], current_token)
    else
      let rows := update_function ft current_token (MAX_EVENTS_BEHIND + 1)
      if MAX_EVENTS_BEHIND ≤ rows.length then
        .error ("stream has fallen behined")
      else
        .ok (rows.map (fun row => (row.1, serializeRow row.2)), current_token)

/-- `Stream.get_updates`: calls `get_updates_since(self.last_token)` and, on
success, sets `self.last_token = current_token`.  Returns the result
together with the post-state; an exception propagates with the state
unchanged. -/
def get_updates (st : StreamSt) (update_function : UpdateFun) :
    Except String (List (Int × String) × Int) × StreamSt :=
  match get_updates_since st update_function (.tok st.last) with
  | .ok (updates, current_token) =>
      (.ok (updates, current_token), { st with last := current_token })
  | .error e => (.error e, st)

/-! ## Stream operation sequences (for the token-ordering invariant) -/

/-- One externally-triggered operation on a stream's token state:
an `advance_current_token` call (with the value the monotone source
returns) or a poke-loop `get_updates` call (with its update function). -/
inductive StreamOp where
  | advance : Int → StreamOp
  | fetch : UpdateFun → StreamOp

/-- Apply one operation to the stream state. -/
def applyOp (st : StreamSt) : StreamOp → StreamSt
  | .advance c => advance_current_token st c
  | .fetch uf => (get_updates st uf).2

/-- Apply a sequence of operations. -/
def runOps (st : StreamSt) : List StreamOp → StreamSt
  | [] => st
  | op :: rest => runOps (applyOp st op) rest

/-- A monotonically non-decreasing backing source: every reading passed to
`advance_current_token` is at least the previous reading (`upto`). -/
def monoOps (st : StreamSt) : List StreamOp → Bool
  | [] => true
  | .advance c :: rest => decide (st.upto ≤ c) && monoOps (applyOp st (.advance c)) rest
  | .fetch uf :: rest => monoOps (applyOp st (.fetch uf)) rest

/-! ## _batch_updates (tcp/resource.py) -/

/-- `_batch_updates(updates)`: Python builds
`[(None, u_i[1]) if u_i[0] == u_(i+1)[0] else u_i  for i in range(n-1)]`
and appends the unchanged last element; embedded by zipping
`updates[:-1]` with `updates[1:]` and appending the last element with its
real token. -/
def _batch_updates (updates : List (Int × String)) : List (Option Int × String) :=
  match updates.getLast? with
  | none => []
  | some lastU =>
    (List.zipWith
      (fun u v => if u.1 = v.1 then ((none : Option Int), u.2) else (some u.1, u.2))
      updates.dropLast updates.tail)
    ++ [(some lastU.1, lastU.2)]

/-! ## Connection protocol (tcp_resource.py, `ReplicationStreamProtocol`) -/

/-- A server-to-client command (`VALID_SERVER_COMMANDS`). -/
inductive Command where
  | rdata : String → Int → String → Command
  | position : String → Int → Command
  | error : String → Command
  | ping : Int → Command
  deriving Repr, DecidableEq

/-- The per-connection state of `ReplicationStreamProtocol`:
`replication_streams` and `connecting_streams` are Python sets (modelled
as their indicator functions), `pending_rdata` is a dict mapping stream
name to the buffered `(token, row)` list, `sent` is the transcript of
commands written to the transport, and `closed` records
`transport.loseConnection()`. -/
structure ConnState where
  replication_streams : String → Bool
  connecting_streams : String → Bool
  pending_rdata : String → List (Int × String)
  sent : List Command
  closed : Bool

/-- A freshly constructed connection: both sets empty, no buffer, nothing
sent. -/
def newConn : ConnState :=
  { replication_streams := fun _ => false
    connecting_streams := fun _ => false
    pending_rdata := fun _ => []
    sent := []
    closed := false }

/-- `ReplicationStreamProtocol.stream_update(stream, token, data)`: send an
`RDATA` if the stream is replicating, buffer into `pending_rdata` if it is
connecting, otherwise drop. -/
def stream_update (c : ConnState) (stream : String) (token : Int)
    (data : String) : ConnState :=
  if c.replication_streams stream then
    { c with sent := c.sent ++ [.rdata stream token data] }
  else if c.connecting_streams stream then
    { c with pending_rdata := fun n =>
        if n = stream then c.pending_rdata stream ++ [(token, data)]
        else c.pending_rdata n }
  else c

/-- `on_REPLICATE`, part before the `yield`: discard the stream from
`replication_streams` and add it to `connecting_streams`. -/
def replicateStart (c : ConnState) (stream_name : String) : ConnState :=
  { c with
    replication_streams := fun n =>
      if n = stream_name then false else c.replication_streams n
    connecting_streams := fun n =>
      if n = stream_name then true else c.connecting_streams n }

/-- `send_error`: send an `ERROR` command and `loseConnection()`. -/
def send_error (c : ConnState) (msg : String) : ConnState :=
  { c with sent := c.sent ++ [.error msg], closed := true }

/-- `on_REPLICATE`, part after the `yield`, applied to the result of
`get_stream_updates`.  On success: send each historical update as `RDATA`,
pop and send the buffered `pending_rdata` rows, send `POSITION`, add the
stream to `replication_streams`.  On exception: `send_error`.  Either way
the `finally` clause discards the stream from `connecting_streams`. -/
def replicateFinish (c : ConnState) (stream_name : String)
    (fetched : Except String (List (Int × String) × Int)) : ConnState :=
  let c1 : ConnState :=
    match fetched with
    | .ok (updates, current_token) =>
      let cA : ConnState :=
        { c with sent := c.sent ++ updates.map (fun u => Command.rdata stream_name u.1 u.2) }
      let cB : ConnState :=
        { cA with
          pending_rdata := fun n => if n = stream_name then [] else cA.pending_rdata n,
          sent := cA.sent ++ (cA.pending_rdata stream_name).map
            (fun u => Command.rdata stream_name u.1 u.2) }
      let cC : ConnState :=
        { cB with sent := cB.sent ++ [.position stream_name current_token] }
      { cC with
        replication_streams := fun n =>
          if n = stream_name then true else cC.replication_streams n }
    | .error _ => send_error c ("failed to handle replicate")
  { c1 with
    connecting_streams := fun n =>
      if n = stream_name then false else c1.connecting_streams n }

/-- The complete `on_REPLICATE` run for one stream, with `deliveries` the
`(token, row)` poke-loop deliveries that `stream_update` hands this
connection while the catch-up fetch is suspended at the `yield`. -/
def on_REPLICATE_run (c : ConnState) (stream_name : String)
    (deliveries : List (Int × String))
    (fetched : Except String (List (Int × String) × Int)) : ConnState :=
  replicateFinish
    (deliveries.foldl (fun c d => stream_update c stream_name d.1 d.2)
      (replicateStart c stream_name))
    stream_name fetched

/-- `ReplicationStreamer.get_stream_updates(stream_name, token)`: look the
stream up in `streams_by_name` (raising on an unknown name) and call its
`get_updates_since`. -/
def get_stream_updates (streams_by_name : List (String × StreamSt × UpdateFun))
    (stream_name : String) (token : FromTok) :
    Except String (List (Int × String) × Int) :=
  match streams_by_name.lookup stream_name with
  | none => .error ("unknown stream " ++ stream_name)
  | some (st, uf) => get_updates_since st uf token

/-! ## Line dispatch (tcp_resource.py, `lineReceived`) -/

/-- `VALID_CLIENT_COMMANDS`. -/
def VALID_CLIENT_COMMANDS : List String := ["NAME", "REPLICATE", "PING", "USER_SYNC"]

/-- Python's `str.strip()` whitespace test (space, tab, newline, carriage
return, vertical tab, form feed). -/
def isPyWhitespace (ch : Char) : Bool :=
  ch = ' ' || ch = '\t' || ch = '\n' || ch = '\r' || ch.val = 11 || ch.val = 12

/-- Python's `line.strip()`: drop leading and trailing whitespace. -/
def pyStrip (l : List Char) : List Char :=
  ((l.dropWhile isPyWhitespace).reverse.dropWhile isPyWhitespace).reverse

/-- Python's `line.split(" ", 1)` unpacked into two variables: split at the
first space; `none` when the line holds no space (the unpacking raises
`ValueError`). -/
def pySplitOnce : List Char → Option (List Char × List Char)
  | [] => none
  | ch :: rest =>
    if ch = ' ' then some ([], rest)
    else (pySplitOnce rest).map (fun p => (ch :: p.1, p.2))

/-- The observable outcome of `lineReceived` on one inbound line:
the commands written, whether the connection was closed, whether an
uncaught exception escaped the handler, and which handler (if any) the
line was dispatched to. -/
structure LineOutcome where
  sent : List Command
  closed : Bool
  raised : Bool
  dispatched : Option (String × String)
  deriving Repr, DecidableEq

/-- `lineReceived(line)`: blank lines (`line.strip() == ""`) are ignored;
`line.split(" ", 1)` raises `ValueError` on a line with no space; an
unrecognized command name gets `send_error` (an `ERROR` command and
`loseConnection`); a recognized one is dispatched to its `on_CMD`
handler. -/
def lineReceived (line : String) : LineOutcome :=
  if pyStrip line.data = [] then
    { sent := [], closed := false, raised := false, dispatched := none }
  else
    match pySplitOnce line.data with
    | none =>
      { sent := [], closed := false, raised := true, dispatched := none }
    | some (cmd, rest) =>
      if String.mk cmd ∈ VALID_CLIENT_COMMANDS then
        { sent := [], closed := false, raised := false,
          dispatched := some (String.mk cmd, String.mk rest) }
      else
        { sent := [.error (("unkown command: ") ++ String.mk cmd)], closed := true,
          raised := false, dispatched := none }

/-! ## Poke loop (tcp/resource.py, `ReplicationStreamer.on_notifier_poke`)

The poke handler is a cooperative coroutine: its only suspension point is
`yield stream.get_updates()`.  We model it as a deterministic machine
driven by external events — a notifier wake-up (`on_notifier_poke` being
invoked), or the in-flight fetch either returning or raising — with
everything between two suspension points executed atomically.  The `try`
around the loop has only a `finally`, so a raising fetch ends the pass:
the exception escapes after `finally` clears `pending_updates` and
`is_looping`.  `env round i` is the value `current_token()` returns for
stream `i` at the `round`-th advance-all-streams sweep. -/

/-- The token state of one stream as seen by the poke loop. -/
structure PokeStream where
  last : Int
  upto : Int
  deriving Repr, DecidableEq

/-- The streamer state relevant to `on_notifier_poke`: the connection list
(`self.connections`, as ids), the `is_looping` and `pending_updates`
flags, the streams, the index of the stream whose `get_updates` is
suspended (if any), and a counter of advance sweeps used to index the
token source. -/
structure PokeState where
  conns : List Nat
  looping : Bool
  pending : Bool
  streams : List PokeStream
  fetching : Option Nat
  round : Nat
  deriving Repr, DecidableEq

/-- Observable actions of the poke machine: the start of one iteration of
the `while self.pending_updates` loop (the advance-all-streams sweep), the
start of a stream fetch, the pass terminating normally, and the pass
aborting because the in-flight fetch raised (the exception escaping
through the `finally` clause). -/
inductive PokeObs where
  | iterStart : PokeObs
  | fetchStart : Nat → PokeObs
  | passEnd : PokeObs
  | passAbort : PokeObs
  deriving Repr, DecidableEq

/-- External events driving the machine: `on_notifier_poke` being invoked
by the notifier, or the suspended `get_updates` call returning
successfully, or the suspended `get_updates` call raising (a
fallen-behind stream or a storage failure). -/
inductive PokeEv where
  | wake : PokeEv
  | fetchReturn : PokeEv
  | fetchError : PokeEv
  deriving Repr, DecidableEq

/-- The advance-all-streams `for` loop: stream `i` (counting from `i0`)
gets `upto := env r i`. -/
def advanceStreams (env : Nat → Nat → Int) (r : Nat) :
    Nat → List PokeStream → List PokeStream
  | _, [] => []
  | i0, s :: rest => { s with upto := env r i0 } :: advanceStreams env r (i0 + 1) rest

/-- `get_updates` returning for stream `i`: its `last_token` becomes the
`upto_token` snapshot. -/
def setLastAt : Nat → List PokeStream → List PokeStream
  | _, [] => []
  | 0, s :: rest => { s with last := s.upto } :: rest
  | i + 1, s :: rest => s :: setLastAt i rest

/-- First index `i` with `stream.last_token != stream.upto_token` (the
`for` loop skips streams with `last_token == upto_token`). -/
def firstNeedy : List PokeStream → Option Nat
  | [] => none
  | s :: rest =>
    if s.last ≠ s.upto then some 0 else (firstNeedy rest).map (fun i => i + 1)

/-- First index at least `i` with `last_token != upto_token`. -/
def firstNeedyFrom (l : List PokeStream) (i : Nat) : Option Nat :=
  (firstNeedy (l.drop i)).map (fun j => i + j)

/-- One iteration of the `while self.pending_updates` loop up to its first
suspension: clear `pending_updates`, call `advance_current_token` on every
stream, then suspend at the first stream needing a fetch; with no such
stream the loop condition is re-checked with `pending_updates` false, so
the pass ends (`finally` clears both flags). -/
def startIter (env : Nat → Nat → Int) (st : PokeState) : PokeState × List PokeObs :=
  let streams := advanceStreams env st.round 0 st.streams
  let st1 : PokeState :=
    { st with streams := streams, round := st.round + 1, pending := false }
  match firstNeedy streams with
  | some i => ({ st1 with fetching := some i }, [.iterStart, .fetchStart i])
  | none =>
    ({ st1 with looping := false, fetching := none }, [.iterStart, .passEnd])

/-- Resume after the fetch for stream `i` returns successfully:
`get_updates` sets that stream's `last_token` to the `upto_token`
snapshot, the rows are fanned out (modelled separately), and the `for`
loop continues with the next stream needing a fetch; past the last
stream, the loop condition is re-checked: with `pending_updates` set a
new iteration starts, otherwise the pass ends. -/
def fetchDone (env : Nat → Nat → Int) (st : PokeState) (i : Nat) :
    PokeState × List PokeObs :=
  let streams := setLastAt i st.streams
  let st1 : PokeState := { st with streams := streams }
  match firstNeedyFrom streams (i + 1) with
  | some j => ({ st1 with fetching := some j }, [.fetchStart j])
  | none =>
    if st1.pending then startIter env { st1 with fetching := none }
    else ({ st1 with looping := false, pending := false, fetching := none }, [.passEnd])

/-- One event step of `on_notifier_poke`.  A wake-up with no connections
returns immediately; a wake-up while `is_looping` only sets
`pending_updates`; otherwise both flags are set and the loop body runs to
its first suspension.  A successful fetch return resumes the suspended
pass.  A raising fetch aborts the pass: the exception propagates out of
the `while` loop, the `finally` clause clears `pending_updates` and
`is_looping`, and the stream's `last_token` is not advanced. -/
def pokeStep (env : Nat → Nat → Int) (st : PokeState) : PokeEv → PokeState × List PokeObs
  | .wake =>
    if st.conns = [] then (st, [])
    else if st.looping then ({ st with pending := true }, [])
    else startIter env { st with looping := true, pending := true }
  | .fetchReturn =>
    match st.fetching with
    | some i => fetchDone env st i
    | none => (st, [])
  | .fetchError =>
    match st.fetching with
    | some _ =>
      ({ st with looping := false, pending := false, fetching := none }, [.passAbort])
    | none => (st, [])

/-- Run the machine over a list of events, concatenating observations. -/
def pokeRun (env : Nat → Nat → Int) (st : PokeState) : List PokeEv → PokeState × List PokeObs
  | [] => (st, [])
  | e :: rest =>
    let r1 := pokeStep env st e
    let r2 := pokeRun env r1.1 rest
    (r2.1, r1.2 ++ r2.2)

/-! ## Poke-pass fan-out (tcp/resource.py, the delivery loops)

Delivery of the batched updates of one stream:
`for conn in self.connections: for token, row in batched_updates:` with a
`try/except` around each `conn.stream_update` call, so one failure is
logged and the loops continue.  `fails c u` says whether the
`stream_update` call on connection `c` for update `u` raises. -/

/-- A single guarded `conn.stream_update(...)` call inside its
`try/except`: the log entry records the attempt and whether it
succeeded. -/
def attemptDeliver (fails : Nat → (Option Int × String) → Bool) (c : Nat)
    (u : Option Int × String) : Nat × (Option Int × String) × Bool :=
  (c, u, ! fails c u)

/-- The two nested delivery loops for one stream's batched updates. -/
def deliverToConns (fails : Nat → (Option Int × String) → Bool) (conns : List Nat)
    (batched : List (Option Int × String)) : List (Nat × (Option Int × String) × Bool) :=
  conns.foldl
    (fun log c => batched.foldl (fun log u => log ++ [attemptDeliver fails c u]) log)
    []

/-- The per-stream portion of one poke-pass iteration: for each stream the
fetched updates are batched with `_batch_updates` and fanned out to every
connection.  The log tags each attempt with the stream name. -/
def pokeFanout (fails : Nat → (Option Int × String) → Bool) (conns : List Nat)
    (streamUpdates : List (String × List (Int × String))) :
    List (String × Nat × (Option Int × String) × Bool) :=
  streamUpdates.foldl
    (fun log su =>
      log ++ (deliverToConns fails conns (_batch_updates su.2)).map (fun e => (su.1, e)))
    []

/-! ## Helper lemmas -/

/-- Unfolding `_batch_updates` on a list of length at least two. -/
theorem batch_updates_cons_cons (p q : Int × String) (rest : List (Int × String)) :
    _batch_updates (p :: q :: rest) =
      (if p.1 = q.1 then ((none : Option Int), p.2) else (some p.1, p.2)) ::
        _batch_updates (q :: rest) := by
  have hne : (q :: rest).getLast? ≠ none := by
    simp [List.getLast?_eq_none_iff]
  cases hq : (q :: rest).getLast? with
  | none => exact absurd hq hne
  | some lastU =>
    simp only [_batch_updates, List.getLast?_cons_cons, hq, List.tail_cons]
    have hdrop : (p :: q :: rest).dropLast = p :: (q :: rest).dropLast := by
      simp [List.dropLast]
    rw [hdrop, List.zipWith_cons_cons, List.cons_append]

theorem batch_updates_map_snd (updates : List (Int × String)) :
    (_batch_updates updates).map Prod.snd = updates.map Prod.snd := by
  induction updates with
  | nil => simp [_batch_updates]
  | cons p tail ih =>
    cases tail with
    | nil => simp [_batch_updates]
    | cons q rest =>
      rw [batch_updates_cons_cons]
      simp only [List.map_cons] at ih ⊢
      rw [ih]
      by_cases h : p.1 = q.1 <;> simp [h]

theorem batch_updates_getLast (updates : List (Int × String)) (p : Int × String)
    (h : updates.getLast? = some p) :
    (_batch_updates updates).getLast? = some (some p.1, p.2) := by
  induction updates with
  | nil => simp at h
  | cons a tail ih =>
    cases tail with
    | nil =>
      simp at h
      simp [_batch_updates, h]
    | cons q rest =>
      rw [List.getLast?_cons_cons] at h
      rw [batch_updates_cons_cons]
      have hlast := ih h
      cases hb : _batch_updates (q :: rest) with
      | nil => rw [hb] at hlast; simp at hlast
      | cons b bs => rw [hb] at hlast; rw [List.getLast?_cons_cons, hlast]

/-- C3: `_batch_updates` maps an ordered list of (token, payload) pairs to
the same payloads in the same order; an entry whose token equals the next
entry's token has its token replaced by the `None` marker and every other
entry — always including the last — keeps its real token; on
`[(1,a),(1,b),(2,c),(3,d),(3,e)]` it yields
`[(None,a),(1,b),(2,c),(None,d),(3,e)]`, on `[]` it yields `[]`, and a
single-element list is returned unchanged. -/
theorem c3_batch_updates_spec :
    _batch_updates [] = [] ∧
    (∀ p : Int × String, _batch_updates [p] = [(some p.1, p.2)]) ∧
    (∀ p q : Int × String, ∀ rest : List (Int × String),
      _batch_updates (p :: q :: rest) =
        (if p.1 = q.1 then ((none : Option Int), p.2) else (some p.1, p.2)) ::
          _batch_updates (q :: rest)) ∧
    (∀ updates : List (Int × String),
      (_batch_updates updates).map Prod.snd = updates.map Prod.snd) ∧
    (∀ updates : List (Int × String), ∀ p : Int × String,
      updates.getLast? = some p →
      (_batch_updates updates).getLast? = some (some p.1, p.2)) ∧
    _batch_updates [(1, "a"), (1, "b"), (2, "c"), (3, "d"), (3, "e")] =
      [(none, "a"), (some 1, "b"), (some 2, "c"), (none, "d"), (some 3, "e")] := by
  refine ⟨by simp [_batch_updates], fun p => by simp [_batch_updates],
    batch_updates_cons_cons, batch_updates_map_snd, batch_updates_getLast, by decide⟩

/-- C3 witness: the hypothesis-bearing conjunct applied at a concrete
input. -/
theorem c3_batch_updates_spec_witness :
    (_batch_updates [((5 : Int), "x")]).getLast? = some (some 5, "x") :=
  c3_batch_updates_spec.2.2.2.2.1 [((5 : Int), "x")] ((5 : Int), "x") rfl

/-- Folding with singleton appends is mapping. -/
theorem foldl_append_map {α β : Type} (g : α → β) (l : List α) (init : List β) :
    l.foldl (fun acc x => acc ++ [g x]) init = init ++ l.map g := by
  induction l generalizing init with
  | nil => simp
  | cons a tl ih => simp [ih]

/-- Folding with list appends is binding. -/
theorem foldl_append_flatMap {α β : Type} (g : α → List β) (l : List α) (init : List β) :
    l.foldl (fun acc x => acc ++ g x) init = init ++ l.flatMap g := by
  induction l generalizing init with
  | nil => simp
  | cons a tl ih => simp [ih]

/-- The delivery double loop in closed form. -/
theorem deliverToConns_eq (fails : Nat → (Option Int × String) → Bool)
    (conns : List Nat) (batched : List (Option Int × String)) :
    deliverToConns fails conns batched =
      conns.flatMap (fun c => batched.map (attemptDeliver fails c)) := by
  unfold deliverToConns
  have h1 : ∀ (c : Nat) (init : List (Nat × (Option Int × String) × Bool)),
      batched.foldl (fun log u => log ++ [attemptDeliver fails c u]) init =
        init ++ batched.map (attemptDeliver fails c) :=
    fun c init => foldl_append_map (attemptDeliver fails c) batched init
  calc conns.foldl
        (fun log c => batched.foldl (fun log u => log ++ [attemptDeliver fails c u]) log) []
      = conns.foldl (fun log c => log ++ batched.map (attemptDeliver fails c)) [] := by
        congr 1
        funext log c
        exact h1 c log
    _ = [] ++ conns.flatMap (fun c => batched.map (attemptDeliver fails c)) :=
        foldl_append_flatMap _ conns []
    _ = conns.flatMap (fun c => batched.map (attemptDeliver fails c)) := by simp

/-- C8: during a poke pass fan-out a failing `stream_update` call is caught
inside the innermost loop, so delivery is attempted for every connection,
every batched update and every stream of the pass whatever the set of
failing deliveries is: the fan-out log is the full
stream × connection × update product, and the sequence of attempts does
not depend on which deliveries fail. -/
theorem c8_delivery_failure_isolated :
    (∀ (fails : Nat → (Option Int × String) → Bool) (conns : List Nat)
        (streamUpdates : List (String × List (Int × String))),
      pokeFanout fails conns streamUpdates =
        streamUpdates.flatMap (fun su =>
          (conns.flatMap (fun c =>
            (_batch_updates su.2).map (fun u => (c, u, ! fails c u)))).map
              (fun e => (su.1, e)))) ∧
    (∀ (fails fails2 : Nat → (Option Int × String) → Bool) (conns : List Nat)
        (streamUpdates : List (String × List (Int × String))),
      (pokeFanout fails conns streamUpdates).map (fun e => (e.1, e.2.1, e.2.2.1)) =
        (pokeFanout fails2 conns streamUpdates).map (fun e => (e.1, e.2.1, e.2.2.1))) := by
  have hmain : ∀ (fails : Nat → (Option Int × String) → Bool) (conns : List Nat)
      (streamUpdates : List (String × List (Int × String))),
      pokeFanout fails conns streamUpdates =
        streamUpdates.flatMap (fun su =>
          (conns.flatMap (fun c =>
            (_batch_updates su.2).map (fun u => (c, u, ! fails c u)))).map
              (fun e => (su.1, e))) := by
    intro fails conns streamUpdates
    unfold pokeFanout
    rw [foldl_append_flatMap
      (fun su => (deliverToConns fails conns (_batch_updates su.2)).map (fun e => (su.1, e)))
      streamUpdates []]
    simp only [List.nil_append]
    congr 1
    funext su
    rw [deliverToConns_eq]
    rfl
  refine ⟨hmain, fun fails fails2 conns streamUpdates => ?_⟩
  rw [hmain fails, hmain fails2]
  simp [List.map_flatMap, List.map_map, Function.comp_def, attemptDeliver]

/-- Every iteration start emits the `iterStart` observation. -/
theorem startIter_emits_iterStart (env : Nat → Nat → Int) (st : PokeState) :
    PokeObs.iterStart ∈ (startIter env st).2 := by
  unfold startIter
  cases hn : firstNeedy (advanceStreams env st.round 0 st.streams) <;> simp [hn]

/-- Single-flight invariant: while the pass is running with the pending
flag set, each event other than a fetch exception either emits a new
iteration start or keeps the pass running with the pending flag still
set. -/
theorem pokeStep_pending_invariant (env : Nat → Nat → Int) (st : PokeState)
    (e : PokeEv) (hl : st.looping = true) (hp : st.pending = true)
    (he : e ≠ PokeEv.fetchError) :
    PokeObs.iterStart ∈ (pokeStep env st e).2 ∨
      ((pokeStep env st e).1.looping = true ∧ (pokeStep env st e).1.pending = true) := by
  cases e with
  | wake =>
    unfold pokeStep
    by_cases hc : st.conns = []
    · right; simp [hc, hl, hp]
    · right; simp [hc, hl]
  | fetchReturn =>
    unfold pokeStep
    cases hf : st.fetching with
    | none => right; simp [hf, hl, hp]
    | some i =>
      unfold fetchDone
      cases hn : firstNeedyFrom (setLastAt i st.streams) (i + 1) with
      | some j => right; simp [hf, hn, hl, hp]
      | none =>
        left
        simp only [hf, hn, hp, if_true]
        exact startIter_emits_iterStart env _
  | fetchError => exact absurd rfl he

/-- C1 counterexample: the in-flight `get_updates` raising refutes "no
wake-up is dropped".  From a running pass whose pending flag was set by a
mid-pass wake-up, a fetch exception ends the pass (the `finally` clause
clears `pending_updates` and `is_looping`) with no further iteration
start, so that wake-up produced no extra pass; and a wake-up arriving
mid-pass while the connection list is empty hits the
`if not self.connections: return` guard and does not even set the pending
flag. -/
theorem c1_counterexample :
    ({ conns := [0], looping := true, pending := true,
       streams := [{ last := 0, upto := 1 }], fetching := some 0,
       round := 1 } : PokeState).looping = true ∧
    ({ conns := [0], looping := true, pending := true,
       streams := [{ last := 0, upto := 1 }], fetching := some 0,
       round := 1 } : PokeState).pending = true ∧
    (pokeRun (fun _ _ => 1)
      { conns := [0], looping := true, pending := true,
        streams := [{ last := 0, upto := 1 }], fetching := some 0, round := 1 }
      [.fetchError]).1.looping = false ∧
    PokeObs.iterStart ∉
      (pokeRun (fun _ _ => 1)
        { conns := [0], looping := true, pending := true,
          streams := [{ last := 0, upto := 1 }], fetching := some 0, round := 1 }
        [.fetchError]).2 ∧
    pokeStep (fun _ _ => 1)
        { conns := [], looping := true, pending := false,
          streams := [{ last := 0, upto := 1 }], fetching := some 0, round := 1 } .wake =
      ({ conns := [], looping := true, pending := false,
         streams := [{ last := 0, upto := 1 }], fetching := some 0, round := 1 }, []) := by
  decide

/-- C1 (amended): at most one poke pass runs at a time.  A notifier
wake-up arriving while a pass is running and the connection list is
nonempty only sets `pending_updates` and returns — it performs no
advance, no fetch and emits no observation; a wake-up arriving while the
connection list is empty is dropped entirely (nothing changes, the
pending flag included).  A raising in-flight fetch aborts the pass: the
`finally` clause clears `pending_updates` and `is_looping` and no
stream's `last_token` advances.  Provided no fetch of the run raises,
no wake-up is dropped: from any state in which a pass is running with
`pending_updates` set, every fetch-exception-free event sequence after
which the pass has terminated contains at least one further full
iteration start (an advance-all-streams sweep followed by the
fetch-each-changed-stream loop). -/
theorem c1_poke_single_flight :
    (∀ (env : Nat → Nat → Int) (st : PokeState),
      st.looping = true → st.conns ≠ [] →
      pokeStep env st .wake = ({ st with pending := true }, [])) ∧
    (∀ (env : Nat → Nat → Int) (st : PokeState),
      st.looping = true → st.conns = [] →
      pokeStep env st .wake = (st, [])) ∧
    (∀ (env : Nat → Nat → Int) (st : PokeState) (i : Nat),
      st.fetching = some i →
      pokeStep env st .fetchError =
        ({ st with looping := false, pending := false, fetching := none },
          [.passAbort])) ∧
    (∀ (env : Nat → Nat → Int) (st : PokeState) (evs : List PokeEv),
      st.looping = true → st.pending = true →
      PokeEv.fetchError ∉ evs →
      (pokeRun env st evs).1.looping = false →
      PokeObs.iterStart ∈ (pokeRun env st evs).2) := by
  refine ⟨?_, ?_, ?_, ?_⟩
  · intro env st hl hc
    unfold pokeStep
    simp [hc, hl]
  · intro env st _ hc
    unfold pokeStep
    simp [hc]
  · intro env st i hf
    unfold pokeStep
    rw [hf]
  · intro env st evs
    induction evs generalizing st with
    | nil =>
      intro hl _ _ hfin
      simp only [pokeRun] at hfin
      rw [hl] at hfin
      exact absurd hfin (by simp)
    | cons e rest ih =>
      intro hl hp hne hfin
      have he : e ≠ PokeEv.fetchError := fun h => hne (h ▸ List.mem_cons_self e rest)
      have hne2 : PokeEv.fetchError ∉ rest := fun h => hne (List.mem_cons_of_mem e h)
      simp only [pokeRun] at hfin ⊢
      rcases pokeStep_pending_invariant env st e hl hp he with hobs | ⟨hl1, hp1⟩
      · exact List.mem_append.mpr (Or.inl hobs)
      · exact List.mem_append.mpr (Or.inr (ih _ hl1 hp1 hne2 hfin))

/-- C1 witness: the four conjuncts applied at concrete states.  A wake-up
while a pass over one stream is running only sets the pending flag; the
same wake-up with no connections changes nothing; a fetch exception ends
the pass with both flags cleared; and an exception-free run that finishes
the in-flight fetch with the pending flag set performs a further
iteration start. -/
theorem c1_poke_single_flight_witness :
    pokeStep (fun _ _ => 1)
        { conns := [0], looping := true, pending := false,
          streams := [{ last := 0, upto := 1 }], fetching := some 0, round := 1 } .wake =
      ({ conns := [0], looping := true, pending := true,
         streams := [{ last := 0, upto := 1 }], fetching := some 0, round := 1 }, []) ∧
    pokeStep (fun _ _ => 1)
        { conns := [], looping := true, pending := true,
          streams := [{ last := 0, upto := 1 }], fetching := some 0, round := 1 } .wake =
      ({ conns := [], looping := true, pending := true,
         streams := [{ last := 0, upto := 1 }], fetching := some 0, round := 1 }, []) ∧
    pokeStep (fun _ _ => 1)
        { conns := [0], looping := true, pending := true,
          streams := [{ last := 0, upto := 1 }], fetching := some 0, round := 1 }
        .fetchError =
      ({ conns := [0], looping := false, pending := false,
         streams := [{ last := 0, upto := 1 }], fetching := none, round := 1 },
        [.passAbort]) ∧
    PokeObs.iterStart ∈
      (pokeRun (fun _ _ => 1)
        { conns := [0], looping := true, pending := true,
          streams := [{ last := 0, upto := 1 }], fetching := some 0, round := 1 }
        [.fetchReturn]).2 :=
  ⟨c1_poke_single_flight.1 (fun _ _ => 1)
      { conns := [0], looping := true, pending := false,
        streams := [{ last := 0, upto := 1 }], fetching := some 0, round := 1 }
      rfl (by decide),
   c1_poke_single_flight.2.1 (fun _ _ => 1)
      { conns := [], looping := true, pending := true,
        streams := [{ last := 0, upto := 1 }], fetching := some 0, round := 1 }
      rfl rfl,
   c1_poke_single_flight.2.2.1 (fun _ _ => 1)
      { conns := [0], looping := true, pending := true,
        streams := [{ last := 0, upto := 1 }], fetching := some 0, round := 1 }
      0 rfl,
   c1_poke_single_flight.2.2.2 (fun _ _ => 1)
      { conns := [0], looping := true, pending := true,
        streams := [{ last := 0, upto := 1 }], fetching := some 0, round := 1 }
      [.fetchReturn] rfl rfl (by decide) (by decide)⟩

/-- C10: a wake-up of the tcp/resource.py poke handler with an empty
connection list returns immediately: the state — every stream's
`last_token` and `upto_token`, the `pending_updates` flag, the
`is_looping` flag — is unchanged and no advance, fetch or other
observable action happens. -/
theorem c10_poke_no_connections (env : Nat → Nat → Int) (st : PokeState)
    (hc : st.conns = []) :
    pokeStep env st .wake = (st, []) := by
  unfold pokeStep
  simp [hc]

/-- C10 witness: the theorem applied at a concrete state with an empty
connection list. -/
theorem c10_poke_no_connections_witness :
    pokeStep (fun _ _ => 7)
        { conns := [], looping := false, pending := false,
          streams := [{ last := 2, upto := 5 }], fetching := none, round := 0 } .wake =
      ({ conns := [], looping := false, pending := false,
         streams := [{ last := 2, upto := 5 }], fetching := none, round := 0 }, []) :=
  c10_poke_no_connections (fun _ _ => 7)
    { conns := [], looping := false, pending := false,
      streams := [{ last := 2, upto := 5 }], fetching := none, round := 0 } rfl

/-- Completing a fetch changes only `last_token`s, never an `upto_token`. -/
theorem setLastAt_map_upto (i : Nat) (l : List PokeStream) :
    (setLastAt i l).map PokeStream.upto = l.map PokeStream.upto := by
  induction l generalizing i with
  | nil => cases i <;> rfl
  | cons s rest ih =>
    cases i with
    | zero => simp [setLastAt]
    | succ j => simp [setLastAt, ih j]

/-- On success, `get_updates_since` always resolves to `upto_token`. -/
theorem get_updates_since_ok_token (st : StreamSt) (uf : UpdateFun) (ft : FromTok)
    (updates : List (Int × String)) (ct : Int)
    (h : get_updates_since st uf ft = .ok (updates, ct)) : ct = st.upto := by
  unfold get_updates_since at h
  cases ft with
  | NOW => simp at h; exact h.2.symm
  | malformed => simp at h
  | tok f =>
    simp only at h
    by_cases hft : f = st.upto
    · simp [hft] at h; exact h.2.symm
    · simp only [hft, if_false, if_neg] at h
      by_cases hlen : MAX_EVENTS_BEHIND ≤ (uf f st.upto (MAX_EVENTS_BEHIND + 1)).length
      · simp [hlen] at h
      · simp [hlen] at h; exact h.2.symm

/-- `get_updates` never changes `upto_token`, and on failure it leaves the
whole state unchanged. -/
theorem get_updates_upto (st : StreamSt) (uf : UpdateFun) :
    (get_updates st uf).2.upto = st.upto := by
  unfold get_updates
  cases h : get_updates_since st uf (.tok st.last) with
  | ok p => rfl
  | error e => rfl

/-- The `last_token <= upto_token` invariant is preserved by any operation
sequence with a monotone backing source. -/
theorem runOps_invariant (ops : List StreamOp) (st : StreamSt)
    (hinv : st.last ≤ st.upto) (hmono : monoOps st ops = true) :
    (runOps st ops).last ≤ (runOps st ops).upto := by
  induction ops generalizing st with
  | nil => exact hinv
  | cons op rest ih =>
    cases op with
    | advance c =>
      simp only [monoOps, Bool.and_eq_true, decide_eq_true_eq] at hmono
      exact ih _ (le_trans hinv hmono.1) hmono.2
    | fetch uf =>
      simp only [monoOps] at hmono
      refine ih _ ?_ hmono
      simp only [applyOp, get_updates]
      cases h : get_updates_since st uf (.tok st.last) with
      | ok p =>
        have := get_updates_since_ok_token st uf (.tok st.last) p.1 p.2 (by rw [h])
        simp [this]
      | error e => simpa using hinv

/-- C4: assuming the backing `current_token` source is monotonically
non-decreasing, `last_token <= upto_token` holds after construction and is
preserved by every `advance_current_token`/`get_updates` sequence;
`get_updates` (the fetch) never changes `upto_token` — mid-pass resumption
of the poke machine leaves every stream's `upto_token` unchanged unless a
new iteration starts — and `last_token` changes only when the fetch
succeeds. -/
theorem c4_token_invariant :
    (∀ (t1 t2 : Int) (ops : List StreamOp), t1 ≤ t2 →
      monoOps (mkStream t1 t2) ops = true →
      (runOps (mkStream t1 t2) ops).last ≤ (runOps (mkStream t1 t2) ops).upto) ∧
    (∀ (st : StreamSt) (uf : UpdateFun), (applyOp st (.fetch uf)).upto = st.upto) ∧
    (∀ (st : StreamSt) (uf : UpdateFun),
      (applyOp st (.fetch uf)).last ≠ st.last → exceptOk (get_updates st uf).1 = true) ∧
    (∀ (env : Nat → Nat → Int) (st : PokeState),
      PokeObs.iterStart ∉ (pokeStep env st .fetchReturn).2 →
      (pokeStep env st .fetchReturn).1.streams.map PokeStream.upto =
        st.streams.map PokeStream.upto) := by
  refine ⟨fun t1 t2 ops h1 h2 => runOps_invariant ops (mkStream t1 t2) h1 h2,
    fun st uf => get_updates_upto st uf, fun st uf hne => ?_, ?_⟩
  · simp only [applyOp] at hne
    cases h : get_updates_since st uf (.tok st.last) with
    | ok p => simp [get_updates, h, exceptOk]
    | error e =>
      exfalso
      apply hne
      simp [get_updates, h]
  · intro env st hno
    unfold pokeStep at hno ⊢
    cases hf : st.fetching with
    | none => simp [hf]
    | some i =>
      simp only [hf] at hno ⊢
      unfold fetchDone at hno ⊢
      cases hn : firstNeedyFrom (setLastAt i st.streams) (i + 1) with
      | some j =>
        simp only [hn]
        exact setLastAt_map_upto i st.streams
      | none =>
        simp only [hn] at hno ⊢
        by_cases hp : st.pending = true
        · exfalso
          simp only [hp, if_true] at hno
          exact hno (startIter_emits_iterStart env _)
        · simp only [Bool.not_eq_true] at hp
          simp only [hp, Bool.false_eq_true, if_false]
          exact setLastAt_map_upto i st.streams

/-- C4 witness: the hypothesis-bearing conjuncts applied at concrete
inputs: a monotone advance/fetch/advance sequence keeps the invariant, a
fetch that changes `last_token` is a successful one, and a mid-pass
resumption that starts no new iteration keeps every `upto_token`. -/
theorem c4_token_invariant_witness :
    ((runOps (mkStream 0 0)
        [.advance 4, .fetch (fun _ _ _ => [(3, "r")]), .advance 9]).last ≤
      (runOps (mkStream 0 0)
        [.advance 4, .fetch (fun _ _ _ => [(3, "r")]), .advance 9]).upto) ∧
    exceptOk (get_updates (mkStream 1 4) (fun _ _ _ => [(2, "r")])).1 = true ∧
    (pokeStep (fun _ _ => 1)
        { conns := [0], looping := true, pending := false,
          streams := [{ last := 0, upto := 1 }], fetching := some 0, round := 1 }
        .fetchReturn).1.streams.map PokeStream.upto =
      ([{ last := 0, upto := 1 }] : List PokeStream).map PokeStream.upto := by
  refine ⟨c4_token_invariant.1 0 0 _ (by decide) (by decide),
    c4_token_invariant.2.2.1 (mkStream 1 4) (fun _ _ _ => [(2, "r")]) (by decide),
    c4_token_invariant.2.2.2 (fun _ _ => 1) _ (by decide)⟩

/-- An update function returning exactly `MAX_EVENTS_BEHIND` rows —
strictly fewer than the `MAX_EVENTS_BEHIND + 1` limit of the fetch. -/
def ufTenThousand : UpdateFun := fun _ _ _ => List.replicate 10000 ((1 : Int), "x")

/-- A fetch whose result reaches `MAX_EVENTS_BEHIND` rows raises the
fallen-behind exception. -/
theorem get_updates_since_fallen_behind (st : StreamSt) (uf : UpdateFun) (ft : Int)
    (hne : ft ≠ st.upto)
    (hlen : MAX_EVENTS_BEHIND ≤ (uf ft st.upto (MAX_EVENTS_BEHIND + 1)).length) :
    get_updates_since st uf (.tok ft) = .error ("stream has fallen behined") := by
  unfold get_updates_since
  simp [hne, hlen]

/-- The length of the 10000-row result, computed without expanding it. -/
theorem ufTenThousand_length (a b : Int) :
    (ufTenThousand a b (MAX_EVENTS_BEHIND + 1)).length = 10000 := by
  rw [show ufTenThousand a b (MAX_EVENTS_BEHIND + 1) =
    List.replicate 10000 ((1 : Int), "x") from rfl, List.length_replicate]

/-- C5 counterexample: the fetch limit is `MAX_EVENTS_BEHIND + 1 = 10001`,
but `get_updates_since` raises already when the result holds
`MAX_EVENTS_BEHIND = 10000` rows (`len(rows) >= MAX_EVENTS_BEHIND`), i.e.
on a result strictly below the limit the claim says is the failure
threshold. -/
theorem c5_counterexample :
    (ufTenThousand 0 5 (MAX_EVENTS_BEHIND + 1)).length < MAX_EVENTS_BEHIND + 1 ∧
    exceptOk (get_updates_since (mkStream 0 5) ufTenThousand (.tok 0)) = false := by
  constructor
  · rw [ufTenThousand_length]
    decide
  · rw [get_updates_since_fallen_behind (mkStream 0 5) ufTenThousand 0 (by decide)
      (by rw [show (mkStream 0 5).upto = (5 : Int) from rfl, ufTenThousand_length]; decide)]
    rfl

/-- C5 (amended): for every `from_token` that is not the `NOW` sentinel
and differs from `upto_token`, `get_updates_since` fetches with
`limit = MAX_EVENTS_BEHIND + 1 = 10001` — the outcome depends only on
that limited call — and fails, declaring the stream fallen behind,
exactly when the result size reaches `MAX_EVENTS_BEHIND = 10000` (one
below the limit); whenever the fetch returns fewer than
`MAX_EVENTS_BEHIND` rows it succeeds with the fetched rows and
`upto_token`, never a silently truncated window. -/
theorem c5_fallen_behind_threshold (st : StreamSt) (uf uf2 : UpdateFun) (ft : Int)
    (hne : ft ≠ st.upto) :
    (exceptOk (get_updates_since st uf (.tok ft)) = true ↔
      (uf ft st.upto (MAX_EVENTS_BEHIND + 1)).length < MAX_EVENTS_BEHIND) ∧
    ((uf ft st.upto (MAX_EVENTS_BEHIND + 1)).length < MAX_EVENTS_BEHIND →
      get_updates_since st uf (.tok ft) =
        .ok ((uf ft st.upto (MAX_EVENTS_BEHIND + 1)).map
          (fun row => (row.1, serializeRow row.2)), st.upto)) ∧
    (uf ft st.upto (MAX_EVENTS_BEHIND + 1) = uf2 ft st.upto (MAX_EVENTS_BEHIND + 1) →
      get_updates_since st uf (.tok ft) = get_updates_since st uf2 (.tok ft)) := by
  refine ⟨?_, ?_, ?_⟩
  · by_cases hlen : MAX_EVENTS_BEHIND ≤ (uf ft st.upto (MAX_EVENTS_BEHIND + 1)).length
    · simp [get_updates_since, hne, hlen, exceptOk, Nat.not_lt.mpr hlen]
    · simp [get_updates_since, hne, hlen, exceptOk, Nat.lt_of_not_le hlen]
  · intro hlen
    simp [get_updates_since, hne, Nat.not_le.mpr hlen]
  · intro heq
    simp [get_updates_since, hne, heq]

/-- C5 witness: the amended theorem applied at a concrete stream and a
two-row fetch: the success test, the returned window and the
dependence only on the limited call, all at `from_token = 0`,
`upto_token = 5`. -/
theorem c5_fallen_behind_threshold_witness :
    (exceptOk (get_updates_since (mkStream 0 5)
        (fun _ _ _ => [((1 : Int), "p"), ((2 : Int), "q")]) (.tok 0)) = true ↔
      ([((1 : Int), "p"), ((2 : Int), "q")] : List (Int × String)).length <
        MAX_EVENTS_BEHIND) ∧
    (([((1 : Int), "p"), ((2 : Int), "q")] : List (Int × String)).length <
        MAX_EVENTS_BEHIND →
      get_updates_since (mkStream 0 5)
          (fun _ _ _ => [((1 : Int), "p"), ((2 : Int), "q")]) (.tok 0) =
        .ok (([((1 : Int), "p"), ((2 : Int), "q")] : List (Int × String)).map
          (fun row => (row.1, serializeRow row.2)), 5)) ∧
    (([((1 : Int), "p"), ((2 : Int), "q")] : List (Int × String)) =
        [((1 : Int), "p"), ((2 : Int), "q")] →
      get_updates_since (mkStream 0 5)
          (fun _ _ _ => [((1 : Int), "p"), ((2 : Int), "q")]) (.tok 0) =
        get_updates_since (mkStream 0 5)
          (fun _ _ _ => [((1 : Int), "p"), ((2 : Int), "q")]) (.tok 0)) :=
  c5_fallen_behind_threshold (mkStream 0 5)
    (fun _ _ _ => [((1 : Int), "p"), ((2 : Int), "q")])
    (fun _ _ _ => [((1 : Int), "p"), ((2 : Int), "q")]) 0 (by decide)

/-- C6: if the fetch performed by `get_updates` fails — the update
function's result reaches the fallen-behind ceiling, or the token is
unresolvable — `last_token` is not advanced: the stream state is exactly
what it was before the call. -/
theorem c6_failed_fetch_preserves_last (st : StreamSt) (uf : UpdateFun) (e : String)
    (h : (get_updates st uf).1 = .error e) : (get_updates st uf).2 = st := by
  unfold get_updates at h ⊢
  cases hs : get_updates_since st uf (.tok st.last) with
  | ok p =>
    obtain ⟨u, ct⟩ := p
    rw [hs] at h
    simp at h
  | error e2 => simp

/-- C6 witness: a fallen-behind fetch (10000 rows) leaves the stream state
unchanged. -/
theorem c6_failed_fetch_preserves_last_witness :
    (get_updates (mkStream 0 5) ufTenThousand).2 = mkStream 0 5 :=
  c6_failed_fetch_preserves_last (mkStream 0 5) ufTenThousand
    ("stream has fallen behined")
    (by
      unfold get_updates
      rw [show (mkStream 0 5).last = (0 : Int) from rfl,
        get_updates_since_fallen_behind (mkStream 0 5) ufTenThousand 0 (by decide)
          (by rw [show (mkStream 0 5).upto = (5 : Int) from rfl, ufTenThousand_length]; decide)])

/-- While a stream is connecting (and not replicating), every poke-loop
delivery for it is buffered in arrival order into `pending_rdata` and
nothing else about the connection changes. -/
theorem buffer_phase (S : String) (ds : List (Int × String)) (c : ConnState)
    (hr : c.replication_streams S = false) (hc : c.connecting_streams S = true) :
    (ds.foldl (fun c d => stream_update c S d.1 d.2) c).sent = c.sent ∧
    (ds.foldl (fun c d => stream_update c S d.1 d.2) c).replication_streams =
      c.replication_streams ∧
    (ds.foldl (fun c d => stream_update c S d.1 d.2) c).connecting_streams =
      c.connecting_streams ∧
    (ds.foldl (fun c d => stream_update c S d.1 d.2) c).pending_rdata S =
      c.pending_rdata S ++ ds ∧
    (ds.foldl (fun c d => stream_update c S d.1 d.2) c).closed = c.closed := by
  induction ds generalizing c with
  | nil => simp
  | cons d rest ih =>
    simp only [List.foldl_cons]
    have hstep : stream_update c S d.1 d.2 =
        { c with pending_rdata := fun n =>
            if n = S then c.pending_rdata S ++ [(d.1, d.2)] else c.pending_rdata n } := by
      unfold stream_update
      rw [hr, hc]
      simp
    rw [hstep]
    have ih2 := ih { c with pending_rdata := fun n =>
        if n = S then c.pending_rdata S ++ [(d.1, d.2)] else c.pending_rdata n } hr hc
    refine ⟨ih2.1, ih2.2.1, ih2.2.2.1, ?_, ih2.2.2.2.2⟩
    rw [ih2.2.2.2.1]
    simp

/-- C2: a connection subscribing to stream `S` (with an empty buffer for
`S`) that receives poke-loop deliveries for `S` while its catch-up fetch
is in flight transmits, in this order: the historical rows returned by the
fetch, then each buffered delivered row exactly once in arrival order,
then the `POSITION` command for `S` — the buffered rows are never
duplicated (the buffer is emptied) and never precede the history — after
which `S` is replicating and no longer connecting. -/
theorem c2_buffered_rows_once_after_history (c : ConnState) (S : String)
    (deliveries hist : List (Int × String)) (tok : Int)
    (hpend : c.pending_rdata S = []) :
    (on_REPLICATE_run c S deliveries (.ok (hist, tok))).sent =
      c.sent ++ hist.map (fun u => Command.rdata S u.1 u.2)
        ++ deliveries.map (fun u => Command.rdata S u.1 u.2)
        ++ [Command.position S tok] ∧
    (on_REPLICATE_run c S deliveries (.ok (hist, tok))).pending_rdata S = [] ∧
    (on_REPLICATE_run c S deliveries (.ok (hist, tok))).replication_streams S = true ∧
    (on_REPLICATE_run c S deliveries (.ok (hist, tok))).connecting_streams S = false := by
  unfold on_REPLICATE_run
  have hb := buffer_phase S deliveries (replicateStart c S)
    (by simp [replicateStart]) (by simp [replicateStart])
  set mid := deliveries.foldl (fun c d => stream_update c S d.1 d.2) (replicateStart c S)
    with hmid
  have hsent : mid.sent = c.sent := by rw [hb.1]; rfl
  have hpend2 : mid.pending_rdata S = deliveries := by
    rw [hb.2.2.2.1]
    have : (replicateStart c S).pending_rdata S = c.pending_rdata S := rfl
    rw [this, hpend, List.nil_append]
  unfold replicateFinish
  refine ⟨?_, ?_, ?_, ?_⟩
  · simp only [hsent, hpend2]
  · simp
  · simp
  · simp

/-- C2 witness: the theorem applied to a fresh connection subscribing to
the events stream with one historical row and one delivery buffered
during catch-up. -/
theorem c2_buffered_rows_once_after_history_witness :
    (on_REPLICATE_run newConn ("events") [(7, "live")] (.ok ([(3, "old")], 9))).sent =
      newConn.sent ++ ([((3 : Int), "old")]).map (fun u => Command.rdata ("events") u.1 u.2)
        ++ ([((7 : Int), "live")]).map (fun u => Command.rdata ("events") u.1 u.2)
        ++ [Command.position ("events") 9] ∧
    (on_REPLICATE_run newConn ("events") [(7, "live")] (.ok ([(3, "old")], 9))).pending_rdata
      ("events") = [] ∧
    (on_REPLICATE_run newConn ("events") [(7, "live")]
      (.ok ([(3, "old")], 9))).replication_streams ("events") = true ∧
    (on_REPLICATE_run newConn ("events") [(7, "live")]
      (.ok ([(3, "old")], 9))).connecting_streams ("events") = false :=
  c2_buffered_rows_once_after_history newConn ("events") [(7, "live")] [(3, "old")] 9 rfl

/-- C7: if the catch-up step of a `REPLICATE` command for stream `S` fails
(an unknown stream name, a malformed token, or a fallen-behind fetch —
any `.error` from `get_stream_updates`), the connection is sent an `ERROR`
command (and only that) and is closed, no `POSITION` for `S` is
transmitted, and afterwards `S` is in neither `connecting_streams` nor
`replication_streams`. -/
theorem c7_replicate_failure (c : ConnState) (S : String)
    (deliveries : List (Int × String))
    (streams_by_name : List (String × StreamSt × UpdateFun)) (token : FromTok)
    (e : String) (herr : get_stream_updates streams_by_name S token = .error e) :
    (on_REPLICATE_run c S deliveries (get_stream_updates streams_by_name S token)).sent =
      c.sent ++ [Command.error ("failed to handle replicate")] ∧
    (∀ t : Int, Command.position S t ∉
      (on_REPLICATE_run c S deliveries
        (get_stream_updates streams_by_name S token)).sent.drop c.sent.length) ∧
    (on_REPLICATE_run c S deliveries
      (get_stream_updates streams_by_name S token)).connecting_streams S = false ∧
    (on_REPLICATE_run c S deliveries
      (get_stream_updates streams_by_name S token)).replication_streams S = false ∧
    (on_REPLICATE_run c S deliveries
      (get_stream_updates streams_by_name S token)).closed = true := by
  unfold on_REPLICATE_run
  have hb := buffer_phase S deliveries (replicateStart c S)
    (by simp [replicateStart]) (by simp [replicateStart])
  set mid := deliveries.foldl (fun c d => stream_update c S d.1 d.2) (replicateStart c S)
    with hmid
  have hsent : mid.sent = c.sent := by rw [hb.1]; rfl
  have hrep : mid.replication_streams S = false := by
    rw [hb.2.1]
    simp [replicateStart]
  rw [herr]
  unfold replicateFinish send_error
  refine ⟨?_, ?_, ?_, ?_, ?_⟩
  · simp [hsent]
  · intro t
    simp only [hsent]
    rw [show (c.sent ++ [Command.error ("failed to handle replicate")]).drop c.sent.length =
      [Command.error ("failed to handle replicate")] from by simp]
    simp
  · simp
  · simp [hrep]
  · simp

/-- C7 witness: a `REPLICATE` for a stream name absent from
`streams_by_name` on a fresh connection: an `ERROR` is sent, the
connection is closed and the stream ends up in neither set. -/
theorem c7_replicate_failure_witness :
    (on_REPLICATE_run newConn ("events") [] (get_stream_updates [] ("events") .NOW)).sent =
      newConn.sent ++ [Command.error ("failed to handle replicate")] ∧
    (∀ t : Int, Command.position ("events") t ∉
      (on_REPLICATE_run newConn ("events") []
        (get_stream_updates [] ("events") .NOW)).sent.drop newConn.sent.length) ∧
    (on_REPLICATE_run newConn ("events") []
      (get_stream_updates [] ("events") .NOW)).connecting_streams ("events") = false ∧
    (on_REPLICATE_run newConn ("events") []
      (get_stream_updates [] ("events") .NOW)).replication_streams ("events") = false ∧
    (on_REPLICATE_run newConn ("events") []
      (get_stream_updates [] ("events") .NOW)).closed = true :=
  c7_replicate_failure newConn ("events") [] [] .NOW ("unknown stream events") rfl

/-- C9 counterexample: the nonblank malformed line `"FOO"` contains no
space, so `line.split(" ", 1)` cannot be unpacked into two variables and
raises an uncaught `ValueError`: no `ERROR` command is transmitted and the
connection is not terminated, contradicting the claim for malformed
command lines. -/
theorem c9_counterexample :
    pyStrip ("FOO").data ≠ [] ∧
    ("FOO") ∉ VALID_CLIENT_COMMANDS ∧
    lineReceived ("FOO") =
      { sent := [], closed := false, raised := true, dispatched := none } :=
  ⟨by decide, by decide, by decide⟩

/-- C9 (amended): a nonblank inbound line containing a space whose first
word is not a recognized client command name (`NAME`, `REPLICATE`, `PING`,
`USER_SYNC`) gets an `ERROR` response and the connection is terminated; a
nonblank line with no space instead raises an uncaught exception out of
`lineReceived` — no `ERROR` is transmitted and the connection is not
closed — and a blank line is ignored. -/
theorem c9_unknown_command_error :
    (∀ (line : String) (cmd rest : List Char), pyStrip line.data ≠ [] →
      pySplitOnce line.data = some (cmd, rest) →
      String.mk cmd ∉ VALID_CLIENT_COMMANDS →
      lineReceived line =
        { sent := [Command.error (("unkown command: ") ++ String.mk cmd)],
          closed := true, raised := false, dispatched := none }) ∧
    (∀ line : String, pyStrip line.data ≠ [] → pySplitOnce line.data = none →
      lineReceived line =
        { sent := [], closed := false, raised := true, dispatched := none }) ∧
    (∀ line : String, pyStrip line.data = [] →
      lineReceived line =
        { sent := [], closed := false, raised := false, dispatched := none }) := by
  refine ⟨?_, ?_, ?_⟩
  · intro line cmd rest hblank hsplit hvalid
    unfold lineReceived
    rw [if_neg hblank, hsplit]
    simp [hvalid]
  · intro line hblank hsplit
    unfold lineReceived
    rw [if_neg hblank, hsplit]
  · intro line hblank
    unfold lineReceived
    rw [if_pos hblank]

/-- C9 witness: the amended theorem applied at the concrete lines
`"FOO bar"` (unknown command: `ERROR` and close), `"FOO"` (no space:
uncaught exception) and `" "` (blank: ignored). -/
theorem c9_unknown_command_error_witness :
    lineReceived ("FOO bar") =
      { sent := [Command.error (("unkown command: ") ++
          String.mk (['F', 'O', 'O']))],
        closed := true, raised := false, dispatched := none } ∧
    lineReceived ("FOO") =
      { sent := [], closed := false, raised := true, dispatched := none } ∧
    lineReceived (" ") =
      { sent := [], closed := false, raised := false, dispatched := none } :=
  ⟨c9_unknown_command_error.1 ("FOO bar") (['F', 'O', 'O']) (['b', 'a', 'r'])
      (by decide) (by decide) (by decide),
   c9_unknown_command_error.2.1 ("FOO") (by decide) (by decide),
   c9_unknown_command_error.2.2 (" ") (by decide)⟩

end Synapse
